import Mathlib

/-!
A shallow embedding of `src/slack/rtm/client.py` (class `RTMClient`):
the connection-lifecycle state machine, callback registry, dispatcher,
read loop, backoff policy and sending API, translated from the source.

Python dicts (JSON payloads) are modelled as association lists of
`String × Value` pairs; Python exceptions as an explicit `Exc` channel
(`Except` or an `Option Exc` field); the mutable client object as an
explicit `RTMState` record threaded through the operations.
-/

namespace Slack

/-- A JSON-ish field value, as decoded by `message.json()` / encoded by
`json.dumps`.  Only the shapes the lifecycle code manipulates are needed. -/
inductive Value where
  | str (s : String)
  | nat (n : Nat)
  deriving DecidableEq, Repr

/-- A JSON object / Python dict: an association list with unique keys. -/
abbrev Payload := List (String × Value)

/-- A registered callback, abstracted to the attributes the client code
inspects: its `__name__`, whether `callable(cb)` holds, and whether
`inspect.signature(cb)` has a `VAR_KEYWORD` (`**kwargs`) parameter. -/
structure Callback where
  name : String
  isCallable : Bool
  hasVarKeyword : Bool
  deriving DecidableEq, Repr

/-- The exceptions raised/caught in `client.py`.  `apiError` is
`slack.errors.SlackApiError` (the bootstrap failure, carrying the response
whose headers may hold a Retry-After hint); `notConnected` is
`SlackClientNotConnectedError`; `clientError` is `SlackClientError`
(registration/configuration failures); `transport` stands for the aiohttp
websocket/connection exceptions (a distinct exception family, not a
`SlackClientError` subclass); `assertion` is Python `AssertionError`. -/
inductive Exc where
  | apiError (msg : String) (retryAfter : Option ℚ)
  | notConnected (msg : String)
  | clientError (msg : String)
  | transport (msg : String)
  | assertion
  deriving DecidableEq, Repr

/-- Frame types yielded by iterating the aiohttp websocket
(`aiohttp.WSMsgType`): the read loop distinguishes TEXT and ERROR;
everything else it silently skips. -/
inductive WSMsgType where
  | text
  | wsError
  | other
  deriving DecidableEq, Repr

/-- One frame yielded by the websocket iterator.  For TEXT frames `json`
is the decoded body (`message.json()`). -/
structure WSMessage where
  type : WSMsgType
  json : Payload
  deriving DecidableEq, Repr

/-- The payload argument of a `_dispatch_event` call: `data=` is a decoded
dict, an exception object (for `error` events), or `None` (for `close`). -/
inductive EventData where
  | payload (p : Payload)
  | exc (e : Exc)
  | noData
  deriving DecidableEq, Repr

/-- One `_dispatch_event(event, data)` call.  The event key is a `Value`
because the event name popped from an inbound frame is whatever object the
`type` field decoded to; registered string names correspond to `.str`. -/
abbrev DispatchCall := Value × EventData

/-- The mutable state of an `RTMClient` instance: the `__init__`-assigned
fields the lifecycle code reads and writes.  `websocket`/`eventLoop` record
whether `self._websocket` / `self._event_loop` are non-None. -/
structure RTMState where
  callbacks : Value → List Callback
  websocket : Bool
  eventLoop : Bool
  lastMessageId : Nat
  connectionAttempts : Nat
  stopped : Bool
  autoReconnect : Bool
  runAsync : Bool

/-- `RTMClient.__init__`: empty registry (`collections.defaultdict(list)`),
no websocket, an event loop always obtained (`loop or get_event_loop()`),
message-id counter 0, attempt counter 0, not stopped. -/
def RTMState.init (runAsync autoReconnect : Bool) : RTMState :=
  { callbacks := fun _ => []
    websocket := false
    eventLoop := true
    lastMessageId := 0
    connectionAttempts := 0
    stopped := false
    autoReconnect := autoReconnect
    runAsync := runAsync }

/-- The message of the not-callable branch of `_validate_callback`. -/
def not_callable_msg (n : String) : String :=
  "The specified callback " ++ n ++ " is not callable."

/-- The message of the missing-**kwargs branch of `_validate_callback`. -/
def kwargs_msg (n : String) : String :=
  "The callback " ++ n ++ " must accept keyword arguments (**kwargs)."

/-- `RTMClient._validate_callback`: raises `SlackClientError` when the
callback is not callable, then when its signature has no VAR_KEYWORD
parameter; each message names the callback. -/
def validate_callback (cb : Callback) : Except Exc Unit :=
  if ¬ cb.isCallable then
    .error (.clientError (not_callable_msg cb.name))
  else if ¬ cb.hasVarKeyword then
    .error (.clientError (kwargs_msg cb.name))
  else
    .ok ()

/-- The `for cb in callback: cls._validate_callback(cb)` loop of `on`:
validates every callback in order, stopping at the first failure. -/
def validate_list : List Callback → Except Exc Unit
  | [] => .ok ()
  | cb :: rest => do
    validate_callback cb
    validate_list rest

/-- Updates the registry at one event key. -/
def updateCallbacks (cbs : Value → List Callback) (event : Value)
    (hs : List Callback) : Value → List Callback :=
  fun e => if e = event then hs else cbs e

/-- `RTMClient.on` with a single callback: validate, then append to the
event's list. -/
def on_single (cbs : Value → List Callback) (event : String) (cb : Callback) :
    Except Exc (Value → List Callback) := do
  validate_callback cb
  pure (updateCallbacks cbs (.str event)
    (cbs (.str event) ++ [cb]))

/-- `RTMClient.on` with a list of callbacks: validate every callback first,
then store `list(set(previous_callbacks + callback))` — the deduplicated
union (Python's `set` has no fixed order; `List.dedup` is one ordering of
that set, and no claim depends on the order). -/
def on_list (cbs : Value → List Callback) (event : String)
    (batch : List Callback) : Except Exc (Value → List Callback) := do
  validate_list batch
  pure (updateCallbacks cbs (.str event)
    ((cbs (.str event) ++ batch).dedup))

/-- The `for callback in self._callbacks[event]` loop of `_dispatch_event`:
per iteration, if the stop flag is set and the event is not `close` or
`error`, `break`; otherwise the callback is executed.  Returns the
callbacks actually executed, in order. -/
def dispatch_loop (stopped : Bool) (event : Value) :
    List Callback → List Callback
  | [] => []
  | cb :: rest =>
    if stopped ∧ ¬ (event = Value.str "close" ∨ event = Value.str "error") then
      []
    else
      cb :: dispatch_loop stopped event rest

/-- `RTMClient._dispatch_event`: runs the registered callbacks for the
event (subject to the stop-flag suppression inside the loop).  No
validation happens here — whatever is stored is executed. -/
def dispatch_event (st : RTMState) (event : Value) : List Callback :=
  dispatch_loop st.stopped event (st.callbacks event)

/-- `RTMClient._next_msg_id`: increments `self._last_message_id` and
returns the new value. -/
def next_msg_id (st : RTMState) : RTMState × Nat :=
  let st1 := { st with lastMessageId := st.lastMessageId + 1 }
  (st1, st1.lastMessageId)

/-- The outcome of one call into the sending API, making the Python-level
effects explicit: the client state after the call, the caller's payload
dict after the call (the code mutates it in place when it adds an `id`),
the frame handed to `websocket.send_str` if any, and the exception raised
if any. -/
structure SendResult where
  state : RTMState
  payload : Payload
  sent : Option Payload
  raised : Option Exc

/-- `RTMClient.send_over_websocket`: raises `SlackClientNotConnectedError`
when `self._websocket is None or self._event_loop is None` — before
touching the payload or the counter.  Otherwise, if `"id" not in payload`,
assigns `payload["id"] = self._next_msg_id()` (a new key lands at the end
of the dict), then sends `json.dumps(payload)` as one frame. -/
def send_over_websocket (st : RTMState) (payload : Payload) : SendResult :=
  if st.websocket = false ∨ st.eventLoop = false then
    { state := st
      payload := payload
      sent := none
      raised := some (.notConnected "Websocket connection is closed.") }
  else
    let (st1, p1) :=
      if (payload.lookup "id").isNone then
        let (st1, mid) := next_msg_id st
        (st1, payload ++ [("id", Value.nat mid)])
      else
        (st, payload)
    { state := st1, payload := p1, sent := some p1, raised := none }

/-- `RTMClient.ping`: builds `{"id": next_msg_id(), "type": "ping"}` —
drawing the id before any connectivity check — then sends it. -/
def ping (st : RTMState) : SendResult :=
  let (st1, mid) := next_msg_id st
  send_over_websocket st1 [("id", Value.nat mid), ("type", Value.str "ping")]

/-- `RTMClient.typing`: builds
`{"id": next_msg_id(), "type": "typing", "channel": channel}` — drawing the
id before any connectivity check — then sends it. -/
def typing (st : RTMState) (channel : String) : SendResult :=
  let (st1, mid) := next_msg_id st
  send_over_websocket st1
    [("id", Value.nat mid), ("type", Value.str "typing"),
     ("channel", Value.str channel)]

/-- One pass of the inner `async for message in self._websocket` loop of
`_read_messages`, over the queue of frames the iterator has yet to yield.
A TEXT frame is decoded, its `type` field popped (default `"Unknown"`)
as the event name, and the rest dispatched; an ERROR frame executes
`break` — exiting the iteration with the remaining frames still queued and
raising nothing; other frame types match no branch and the loop continues.
Returns the `_dispatch_event` calls made and the frames left unconsumed. -/
def read_pass : List WSMessage → List (Value × Payload) × List WSMessage
  | [] => ([], [])
  | msg :: rest =>
    match msg.type with
    | .text =>
      let event := (msg.json.lookup "type").getD (Value.str "Unknown")
      let data := msg.json.filter (fun kv => ¬ kv.1 = "type")
      let (evs, rem) := read_pass rest
      ((event, data) :: evs, rem)
    | .wsError => ([], rest)
    | .other => read_pass rest

/-- The outer `while not self._stopped and self._websocket is not None`
loop of `_read_messages`: re-enters the `async for` after each pass.  The
recursion is fuelled by the length of the frame queue: a pass on a
non-empty queue consumes at least one frame, so this fuel drains every
frame; once the queue is empty further passes yield nothing (in the source
the `while` keeps re-entering the exhausted iterator without dispatching —
the fuel cut-off discards only those empty iterations, never a dispatch). -/
def read_loop (stopped websocket : Bool) :
    Nat → List WSMessage → List (Value × Payload)
  | 0, _ => []
  | n + 1, stream =>
    if stopped = true ∨ websocket = false then []
    else
      match stream with
      | [] => []
      | msg :: rest =>
        (read_pass (msg :: rest)).1 ++
          read_loop stopped websocket n (read_pass (msg :: rest)).2

/-- `RTMClient._read_messages`: the `_dispatch_event` calls made while
consuming the given frame stream.  The function returns normally — there
is no `raise` in its body, so no exception channel exists here. -/
def read_messages (st : RTMState) (stream : List WSMessage) :
    List (Value × Payload) :=
  read_loop st.stopped st.websocket stream.length stream

/-- `RTMClient._wait_exponentially`: computes
`min(2 ** connection_attempts + random.random(), max_wait_time)`, then
overwrites it with the server's Retry-After header when the exception's
response carries one.  `jitter` stands for the `random.random()` draw;
`max_wait_time` defaults to 300 at the call site. -/
def wait_exponentially (attempts : Nat) (jitter : ℚ)
    (retryAfter : Option ℚ) (maxWaitTime : ℚ) : ℚ :=
  let wait := min ((2 : ℚ) ^ attempts + jitter) maxWaitTime
  match retryAfter with
  | some h => h
  | none => wait

/-- `RTMClient._close_websocket`: issues a fire-and-forget close on the
transport when one is open, sets `self._websocket = None`, and dispatches
a `close` event with no payload.  Returns the new state and the
`_dispatch_event` calls made. -/
def close_websocket (st : RTMState) : RTMState × List DispatchCall :=
  ({ st with websocket := false }, [(Value.str "close", EventData.noData)])

/-- `RTMClient.stop`: sets the stop flag, then closes the websocket (which
dispatches `close`). -/
def stop (st : RTMState) : RTMState × List DispatchCall :=
  close_websocket { st with stopped := true }

/-- The environment's resolution of one iteration of the supervisor loop
in `_connect_and_read`: the bootstrap call raises `SlackApiError`
(`bootstrapFail`, with the response's optional Retry-After header), or
`session.ws_connect` raises an aiohttp transport exception
(`wsConnectFail`), or the connection opens with the bootstrap payload
`data` and the transport then yields `frames`. -/
inductive AttemptOutcome where
  | bootstrapFail (msg : String) (retryAfter : Option ℚ)
  | wsConnectFail (msg : String)
  | connected (data : Payload) (frames : List WSMessage)
  deriving DecidableEq, Repr

/-- The observable outcome of running `_connect_and_read` against a script
of per-attempt environment outcomes: final client state, the
`_dispatch_event` calls in order, the backoff waits performed (recorded as
the attempt counter at the wait together with the Retry-After hint), and
the exception that escaped the coroutine, if any. -/
structure RunResult where
  state : RTMState
  dispatched : List DispatchCall
  backoffs : List (Nat × Option ℚ)
  raised : Option Exc

/-- `RTMClient._connect_and_read`: `while not self._stopped`, one attempt
per iteration inside one `try`.  The attempt counter is incremented first.
A `SlackApiError` from the bootstrap is caught by the `except` clause
(which names only `SlackClientNotConnectedError` and `SlackApiError` — a
TODO in the source notes that aiohttp websocket exceptions are not
caught): it dispatches an `error` event, then either backs off and
continues (when `auto_reconnect and not stopped`) or closes the websocket
and re-raises.  An aiohttp exception from `ws_connect` matches no `except`
clause and escapes at once — no `error` event, no backoff, no close.  On a
successful connection the websocket is stored, `open` is dispatched with
the bootstrap payload, and `_read_messages` runs; its normal return falls
through to the next `while` iteration.  The script is finite, so the run
is observed for `script.length` iterations. -/
def connect_and_read (st : RTMState) :
    List AttemptOutcome → RunResult
  | [] =>
    { state := st, dispatched := [], backoffs := [], raised := none }
  | outcome :: rest =>
    if st.stopped = true then
      { state := st, dispatched := [], backoffs := [], raised := none }
    else
      let st1 := { st with connectionAttempts := st.connectionAttempts + 1 }
      match outcome with
      | .bootstrapFail msg hint =>
        let e : Exc := .apiError msg hint
        let errEv : DispatchCall := (Value.str "error", EventData.exc e)
        if st1.autoReconnect = true ∧ st1.stopped = false then
          let r := connect_and_read st1 rest
          { state := r.state
            dispatched := errEv :: r.dispatched
            backoffs := (st1.connectionAttempts, hint) :: r.backoffs
            raised := r.raised }
        else
          let (st2, closeEvs) := close_websocket st1
          { state := st2
            dispatched := errEv :: closeEvs
            backoffs := []
            raised := some e }
      | .wsConnectFail msg =>
        { state := st1
          dispatched := []
          backoffs := []
          raised := some (.transport msg) }
      | .connected data frames =>
        let st2 := { st1 with websocket := true }
        let openEv : DispatchCall := (Value.str "open", EventData.payload data)
        let msgs := (read_messages st2 frames).map
          fun ed => (ed.1, EventData.payload ed.2)
        let r := connect_and_read st2 rest
        { state := r.state
          dispatched := openEv :: msgs ++ r.dispatched
          backoffs := r.backoffs
          raised := r.raised }

/-- `RTMClient.start`: registers signal handlers (an environment side
effect, outside the client state), schedules `_connect_and_read` as a
future on the loop, and then executes
`if self.run_async or self._event_loop.is_running(): assert False`.
`loopRunning` is `self._event_loop.is_running()` at the call.  Returns
the scheduled future (`.ok`) or the `AssertionError` (`.error`).  Note the
scheduled coroutine has not run when `start` returns: nothing awaits it. -/
def start (st : RTMState) (loopRunning : Bool) : Except Exc RTMState :=
  if st.runAsync = true ∨ loopRunning = true then .error .assertion
  else .ok st

/-! Concrete callbacks and states used to instantiate the theorems below. -/

/-- A valid callback: callable, accepts `**kwargs`. -/
def say_hello : Callback := ⟨"say_hello", true, true⟩

/-- A callable callback whose signature lacks a `**kwargs` parameter. -/
def no_kwargs_cb : Callback := ⟨"no_kwargs", true, false⟩

/-- A valid callback registered for the `close` event. -/
def close_cb : Callback := ⟨"on_close", true, true⟩

/-- A freshly constructed client (blocking mode, auto-reconnect on) whose
websocket has been opened. -/
def connected_state : RTMState :=
  { RTMState.init false true with websocket := true }

/-- A connected client with one handler on `close` and one on `message`. -/
def st_close : RTMState :=
  { RTMState.init false true with
    websocket := true
    callbacks := fun e =>
      if e = Value.str "close" then [close_cb]
      else if e = Value.str "message" then [say_hello]
      else [] }

/-- `st_close` after `stop()` has been called once. -/
def stopped_state : RTMState := (stop st_close).1

/-- A frame reporting a transport-level error (`aiohttp.WSMsgType.ERROR`). -/
def errFrame : WSMessage := ⟨WSMsgType.wsError, []⟩

/-- A decoded `message` text frame. -/
def msgFrame : WSMessage :=
  ⟨WSMsgType.text, [("type", Value.str "message"), ("text", Value.str "hi")]⟩

/-! Helper lemmas shared by the claim theorems. -/

/-- The stop-flag suppression never interrupts a `close` or `error`
dispatch: the loop runs every callback. -/
theorem dispatch_loop_terminal (stopped : Bool) (event : Value)
    (hev : event = Value.str "close" ∨ event = Value.str "error") :
    ∀ l : List Callback, dispatch_loop stopped event l = l := by
  intro l
  induction l with
  | nil => rfl
  | cons cb rest ih =>
    unfold dispatch_loop
    rw [if_neg, ih]
    rintro ⟨-, hne⟩
    exact hne hev

/-- With the stop flag clear, the dispatch loop runs every callback. -/
theorem dispatch_loop_not_stopped (event : Value) :
    ∀ l : List Callback, dispatch_loop false event l = l := by
  intro l
  induction l with
  | nil => rfl
  | cons cb rest ih =>
    unfold dispatch_loop
    rw [if_neg, ih]
    rintro ⟨h, -⟩
    exact Bool.false_ne_true h

/-- With the stop flag set and an ordinary event, the first loop iteration
executes `break`: no callback runs. -/
theorem dispatch_loop_stopped_other (event : Value)
    (hev : ¬ (event = Value.str "close" ∨ event = Value.str "error")) :
    ∀ l : List Callback, dispatch_loop true event l = [] := by
  intro l
  cases l with
  | nil => rfl
  | cons cb rest =>
    unfold dispatch_loop
    rw [if_pos]
    exact ⟨rfl, hev⟩

/-- A key that `List.lookup` does not find heads no pair of the list:
filtering it out is the identity. -/
theorem filter_of_lookup_none (p : Payload) (k : String)
    (h : p.lookup k = none) : p.filter (fun kv => ¬ kv.1 = k) = p := by
  induction p with
  | nil => rfl
  | cons kv rest ih =>
    rw [List.lookup] at h
    cases hk : (k == kv.1) with
    | false =>
      rw [hk] at h
      have hne : ¬ kv.1 = k := by
        intro he
        rw [he] at hk
        simp at hk
      have hd : (decide ¬ kv.1 = k) = true := by simp [hne]
      simp only [List.filter, hd, ih h]
    | true =>
      rw [hk] at h
      simp at h

/-- `List.lookup` scans left to right: a key absent from the prefix is
looked up in the suffix. -/
theorem lookup_append_of_none (p q : Payload) (k : String)
    (h : p.lookup k = none) : (p ++ q).lookup k = q.lookup k := by
  induction p with
  | nil => rfl
  | cons kv rest ih =>
    rw [List.lookup] at h
    cases hk : (k == kv.1) with
    | false =>
      rw [hk] at h
      rw [List.cons_append, List.lookup, hk]
      exact ih h
    | true =>
      rw [hk] at h
      simp at h

/-- Unfolding `read_pass` at a TEXT frame: the decoded body, minus its
popped `type` field, is dispatched under the popped event name, and the
pass continues. -/
theorem read_pass_text (j : Payload) (rest : List WSMessage) :
    read_pass (⟨WSMsgType.text, j⟩ :: rest) =
      (((j.lookup "type").getD (Value.str "Unknown"),
        j.filter (fun kv => ¬ kv.1 = "type")) :: (read_pass rest).1,
       (read_pass rest).2) := by
  rcases hp : read_pass rest with ⟨evs, rem⟩
  simp [read_pass, hp]

/-- Unfolding `read_pass` at an ERROR frame: `break` — no dispatch, no
exception, the remaining frames left queued. -/
theorem read_pass_wsError (j : Payload) (rest : List WSMessage) :
    read_pass (⟨WSMsgType.wsError, j⟩ :: rest) = ([], rest) := by
  simp [read_pass]

/-- Unfolding `read_pass` at any other frame type: skipped. -/
theorem read_pass_skip (j : Payload) (rest : List WSMessage) :
    read_pass (⟨WSMsgType.other, j⟩ :: rest) = read_pass rest := by
  simp [read_pass]

/-- Every dispatch produced by one pass of the inner loop comes from a
TEXT frame of the queue, under the popped `type` name with the `type` key
removed from the payload; and the frames a pass leaves queued were part of
the queue. -/
theorem read_pass_shape (s : List WSMessage) :
    (∀ ed ∈ (read_pass s).1, ∃ m ∈ s, m.type = WSMsgType.text ∧
      ed = ((m.json.lookup "type").getD (Value.str "Unknown"),
            m.json.filter (fun kv => ¬ kv.1 = "type"))) ∧
    (∀ m ∈ (read_pass s).2, m ∈ s) := by
  induction s with
  | nil => simp [read_pass]
  | cons msg rest ih =>
    rcases msg with ⟨t, j⟩
    cases t with
    | text =>
      rw [read_pass_text]
      constructor
      · rintro ed hed
        rcases List.mem_cons.mp hed with he | he
        · exact ⟨⟨WSMsgType.text, j⟩, List.mem_cons_self _ _, rfl, he⟩
        · rcases ih.1 ed he with ⟨m, hm, hmt, hme⟩
          exact ⟨m, List.mem_cons_of_mem _ hm, hmt, hme⟩
      · intro m hm
        exact List.mem_cons_of_mem _ (ih.2 m hm)
    | wsError =>
      rw [read_pass_wsError]
      constructor
      · rintro ed hed
        simp at hed
      · intro m hm
        exact List.mem_cons_of_mem _ hm
    | other =>
      rw [read_pass_skip]
      constructor
      · rintro ed hed
        rcases ih.1 ed hed with ⟨m, hm, hmt, hme⟩
        exact ⟨m, List.mem_cons_of_mem _ hm, hmt, hme⟩
      · intro m hm
        exact List.mem_cons_of_mem _ (ih.2 m hm)

/-- Unfolding the fuelled outer loop when the stop/closed guard fires. -/
theorem read_loop_halt (stopped ws : Bool) (n : Nat) (stream : List WSMessage)
    (h : stopped = true ∨ ws = false) :
    read_loop stopped ws (n + 1) stream = [] := by
  simp [read_loop, h]

/-- Unfolding the fuelled outer loop on an exhausted frame queue. -/
theorem read_loop_nil (stopped ws : Bool) (n : Nat) :
    read_loop stopped ws (n + 1) [] = [] := by
  simp [read_loop]

/-- Unfolding the fuelled outer loop on a non-empty frame queue: one inner
pass, then re-entry on what the pass left queued. -/
theorem read_loop_cons (stopped ws : Bool) (n : Nat) (msg : WSMessage)
    (rest : List WSMessage) (h : ¬ (stopped = true ∨ ws = false)) :
    read_loop stopped ws (n + 1) (msg :: rest) =
      (read_pass (msg :: rest)).1 ++
        read_loop stopped ws n (read_pass (msg :: rest)).2 := by
  simp [read_loop, h]

/-- Every dispatch produced by the fuelled outer loop comes from a TEXT
frame of the stream, in the popped-`type` shape. -/
theorem read_loop_shape (stopped ws : Bool) :
    ∀ (fuel : Nat) (stream : List WSMessage),
      ∀ ed ∈ read_loop stopped ws fuel stream,
        ∃ m ∈ stream, m.type = WSMsgType.text ∧
          ed = ((m.json.lookup "type").getD (Value.str "Unknown"),
                m.json.filter (fun kv => ¬ kv.1 = "type")) := by
  intro fuel
  induction fuel with
  | zero =>
    intro stream ed hed
    simp [read_loop] at hed
  | succ n ih =>
    intro stream ed hed
    by_cases hc : stopped = true ∨ ws = false
    · rw [read_loop_halt stopped ws n stream hc] at hed
      simp at hed
    · cases stream with
      | nil =>
        rw [read_loop_nil] at hed
        simp at hed
      | cons msg rest =>
        rw [read_loop_cons stopped ws n msg rest hc] at hed
        rcases List.mem_append.mp hed with hed | hed
        · exact (read_pass_shape (msg :: rest)).1 ed hed
        · rcases ih _ ed hed with ⟨m, hm, hmt, hme⟩
          exact ⟨m, (read_pass_shape (msg :: rest)).2 m hm, hmt, hme⟩

/-! The claims. -/

/-- C1: the claim says `start()` begins a connection attempt without any
assertion failure in every configuration, the assertion branch being
unreachable.  In the source the branch `if self.run_async or
self._event_loop.is_running(): assert False` executes `assert False` for
the documented `run_async=True` mode (and whenever the loop is already
running), so `start()` raises `AssertionError` there; only the blocking
mode with a non-running loop avoids the assertion. -/
theorem start_hits_assertion :
    start (RTMState.init true true) false = Except.error Exc.assertion ∧
    start (RTMState.init false true) true = Except.error Exc.assertion ∧
    start (RTMState.init false true) false =
      Except.ok (RTMState.init false true) :=
  ⟨rfl, rfl, rfl⟩

/-- C4 counterexample: a second `stop()` is not a no-op.  On a client that
was stopped once (`stopped_state`), calling `stop()` again dispatches a
second `close` event, and that dispatch runs the registered close handler
(`close` is exempt from the stopped-flag suppression). -/
theorem second_stop_reemits_close :
    (stop stopped_state).2 = [(Value.str "close", EventData.noData)] ∧
    dispatch_event (stop stopped_state).1 (Value.str "close") = [close_cb] := by
  constructor
  · rfl
  · rfl

/-- C4 (amended): `stop()` is idempotent on the client state (the second
call leaves `stopped`, `_websocket` and every other field as the first
call left them), but it is not a no-op for events: each call dispatches a
`close` event, whose handlers all run since `close` bypasses the
stopped-flag suppression. -/
theorem stop_idempotent_state_reemits_close (st : RTMState) :
    (stop (stop st).1).1 = (stop st).1 ∧
    (stop (stop st).1).2 = [(Value.str "close", EventData.noData)] ∧
    dispatch_event (stop (stop st).1).1 (Value.str "close")
      = (stop st).1.callbacks (Value.str "close") := by
  refine ⟨rfl, rfl, ?_⟩
  exact dispatch_loop_terminal _ _ (Or.inl rfl) _

/-- C5: once the stop flag is set, dispatching any event other than
`close` or `error` executes zero handlers (the loop breaks at its first
iteration), while dispatching `close` or `error` still executes every
handler registered for that event. -/
theorem dispatch_after_stop (st : RTMState) (event : Value)
    (h : st.stopped = true) :
    (¬ (event = Value.str "close" ∨ event = Value.str "error") →
      dispatch_event st event = []) ∧
    (event = Value.str "close" ∨ event = Value.str "error" →
      dispatch_event st event = st.callbacks event) := by
  constructor
  · intro hev
    unfold dispatch_event
    rw [h]
    exact dispatch_loop_stopped_other event hev _
  · intro hev
    unfold dispatch_event
    exact dispatch_loop_terminal _ _ hev _

/-- C5 witness: on the stopped client `stopped_state`, dispatching
`message` runs no handler while dispatching `close` runs the registered
close handler. -/
theorem dispatch_after_stop_holds :
    dispatch_event stopped_state (Value.str "message") = [] ∧
    dispatch_event stopped_state (Value.str "close")
      = stopped_state.callbacks (Value.str "close") :=
  ⟨(dispatch_after_stop stopped_state (Value.str "message") rfl).1
      (by rintro (h | h) <;> simp at h),
   (dispatch_after_stop stopped_state (Value.str "close") rfl).2 (Or.inl rfl)⟩

/-- C7: without a Retry-After hint the computed delay is exactly
`min(2 ** n + jitter, C)` with the jitter drawn from `[0, 1)`, hence
non-negative and at most the ceiling `C`; with a hint `h` the delay
equals `h` exactly, whatever `n` and `C` are. -/
theorem wait_exponentially_spec (n : Nat) (j C : ℚ)
    (_hn : 1 ≤ n) (hj0 : 0 ≤ j) (_hj1 : j < 1) (hC : 0 ≤ C) :
    wait_exponentially n j none C = min ((2 : ℚ) ^ n + j) C ∧
    0 ≤ wait_exponentially n j none C ∧
    wait_exponentially n j none C ≤ C ∧
    ∀ h : ℚ, wait_exponentially n j (some h) C = h := by
  refine ⟨rfl, ?_, ?_, fun h => rfl⟩
  · refine le_min ?_ hC
    have h2 : (0 : ℚ) < 2 ^ n := by positivity
    linarith
  · exact min_le_right _ _

/-- C7 witness: the bounds at attempt 1, jitter 0, ceiling 300 (the
source's default `max_wait_time`), and the hint override at those
parameters. -/
theorem wait_exponentially_spec_holds :
    wait_exponentially 1 0 none 300 = min ((2 : ℚ) ^ 1 + 0) 300 ∧
    0 ≤ wait_exponentially 1 0 none 300 ∧
    wait_exponentially 1 0 none 300 ≤ 300 ∧
    ∀ h : ℚ, wait_exponentially 1 0 (some h) 300 = h :=
  wait_exponentially_spec 1 0 300 le_rfl le_rfl (by norm_num) (by norm_num)

/-- C10: with no open websocket, `send_over_websocket` raises the
not-connected error before touching anything — the client state (in
particular the message-id counter) and the caller's payload are unchanged
and no frame is sent; but `ping()` and `typing()` call `_next_msg_id()`
while building their payload, before the connectivity check inside
`send_over_websocket`, so they raise the same error having already
advanced the counter, with no frame sent. -/
theorem not_connected_send_paths (st : RTMState) (p : Payload)
    (channel : String) (hws : st.websocket = false) :
    send_over_websocket st p =
      { state := st, payload := p, sent := none
        raised := some (.notConnected "Websocket connection is closed.") } ∧
    ((ping st).raised
        = some (.notConnected "Websocket connection is closed.") ∧
      (ping st).sent = none ∧
      (ping st).state.lastMessageId = st.lastMessageId + 1) ∧
    ((typing st channel).raised
        = some (.notConnected "Websocket connection is closed.") ∧
      (typing st channel).sent = none ∧
      (typing st channel).state.lastMessageId = st.lastMessageId + 1) := by
  refine ⟨?_, ⟨?_, ?_, ?_⟩, ⟨?_, ?_, ?_⟩⟩ <;>
    simp [send_over_websocket, ping, typing, next_msg_id, hws]

/-- C10 witness: on a fresh client (websocket closed, counter 0), `ping`
raises not-connected yet leaves the counter at 1. -/
theorem not_connected_send_paths_holds :
    (ping (RTMState.init false true)).raised
        = some (.notConnected "Websocket connection is closed.") ∧
    (ping (RTMState.init false true)).sent = none ∧
    (ping (RTMState.init false true)).state.lastMessageId = 1 :=
  (not_connected_send_paths (RTMState.init false true) [] "C1" rfl).2.1

/-- C6: over an open websocket, a payload lacking an `id` is transmitted
as exactly one frame carrying `id = lastMessageId + 1` — the smallest
positive integer the strictly increasing counter (starting at 0 on a fresh
client) has not yet assigned on this connection — with every other field
unchanged; a payload that already carries an `id` is transmitted as-is and
the counter is untouched. -/
theorem send_assigns_smallest_unused_id (st : RTMState) (p : Payload)
    (hws : st.websocket = true) (hloop : st.eventLoop = true) :
    (p.lookup "id" = none →
      (send_over_websocket st p).raised = none ∧
      (send_over_websocket st p).sent
        = some (p ++ [("id", Value.nat (st.lastMessageId + 1))]) ∧
      (p ++ [("id", Value.nat (st.lastMessageId + 1))]).lookup "id"
        = some (Value.nat (st.lastMessageId + 1)) ∧
      IsLeast {n : ℕ | 0 < n ∧ n ∉ Finset.Icc 1 st.lastMessageId}
        (st.lastMessageId + 1) ∧
      (p ++ [("id", Value.nat (st.lastMessageId + 1))]).filter
        (fun kv => ¬ kv.1 = "id") = p ∧
      (send_over_websocket st p).state.lastMessageId
        = st.lastMessageId + 1) ∧
    (∀ v, p.lookup "id" = some v →
      send_over_websocket st p =
        { state := st, payload := p, sent := some p, raised := none }) ∧
    (RTMState.init false true).lastMessageId = 0 ∧
    (∀ s : RTMState, (next_msg_id s).1.lastMessageId = s.lastMessageId + 1
      ∧ s.lastMessageId < (next_msg_id s).2) := by
  refine ⟨?_, ?_, rfl, fun s => ⟨rfl, Nat.lt_succ_self _⟩⟩
  · intro hid
    have hcond : ¬ (st.websocket = false ∨ st.eventLoop = false) := by
      rw [hws, hloop]
      rintro (h | h) <;> simp at h
    refine ⟨?_, ?_, ?_, ?_, ?_, ?_⟩
    · simp [send_over_websocket, hcond, hid, next_msg_id]
    · simp [send_over_websocket, hcond, hid, next_msg_id]
    · rw [lookup_append_of_none p _ _ hid]
      simp [List.lookup]
    · constructor
      · constructor
        · exact Nat.succ_pos _
        · simp [Finset.mem_Icc]
      · rintro b ⟨hb0, hbI⟩
        simp only [Finset.mem_Icc, not_and, not_le] at hbI
        exact hbI hb0
    · rw [List.filter_append, filter_of_lookup_none p _ hid]
      simp [List.filter]
    · simp [send_over_websocket, hcond, hid, next_msg_id]
  · intro v hv
    have hcond : ¬ (st.websocket = false ∨ st.eventLoop = false) := by
      rw [hws, hloop]
      rintro (h | h) <;> simp at h
    simp [send_over_websocket, hcond, hv]

/-- C6 witness: on `connected_state` (counter 0), sending the id-less
typing payload transmits it with `id = 1` appended and leaves the other
fields intact. -/
theorem send_assigns_smallest_unused_id_holds :
    (send_over_websocket connected_state
        [("type", Value.str "typing"), ("channel", Value.str "C1")]).sent
      = some [("type", Value.str "typing"), ("channel", Value.str "C1"),
              ("id", Value.nat 1)] :=
  ((send_assigns_smallest_unused_id connected_state
      [("type", Value.str "typing"), ("channel", Value.str "C1")]
      rfl rfl).1 rfl).2.1

/-- C9: registering a callback that is not callable, or whose signature
has no `**kwargs` parameter, fails with the configuration error
(`SlackClientError`) whose message names that callback — in the batch form
the whole batch is validated before the registry is assigned, so a bad
callback anywhere in the batch means the call returns the error and stores
nothing; and dispatch never validates: with the stop flag clear it
executes exactly the stored callbacks, whatever their attributes. -/
theorem register_invalid_fails (cbs : Value → List Callback) (event : String)
    (good : List Callback) (bad : Callback) (rest : List Callback)
    (hgood : ∀ cb ∈ good, cb.isCallable = true ∧ cb.hasVarKeyword = true)
    (hbad : bad.isCallable = false ∨ bad.hasVarKeyword = false) :
    (on_list cbs event (good ++ bad :: rest) =
      .error (.clientError (if bad.isCallable = false
        then not_callable_msg bad.name else kwargs_msg bad.name))) ∧
    (on_single cbs event bad =
      .error (.clientError (if bad.isCallable = false
        then not_callable_msg bad.name else kwargs_msg bad.name))) ∧
    (∀ st : RTMState, st.stopped = false →
      dispatch_event st (Value.str event) = st.callbacks (Value.str event)) := by
  have hvb : validate_callback bad =
      .error (.clientError (if bad.isCallable = false
        then not_callable_msg bad.name else kwargs_msg bad.name)) := by
    rcases hbad with hb | hb
    · simp [validate_callback, hb]
    · cases hcall : bad.isCallable with
      | false => simp [validate_callback, hcall]
      | true => simp [validate_callback, hcall, hb]
  have hvl : validate_list (good ++ bad :: rest) =
      .error (.clientError (if bad.isCallable = false
        then not_callable_msg bad.name else kwargs_msg bad.name)) := by
    induction good with
    | nil =>
      simp only [List.nil_append, validate_list, hvb]
      rfl
    | cons cb gs ih =>
      have hcb := hgood cb (List.mem_cons_self cb gs)
      have : validate_callback cb = .ok () := by
        simp [validate_callback, hcb.1, hcb.2]
      rw [List.cons_append, validate_list, this]
      exact ih fun c hc => hgood c (List.mem_cons_of_mem cb hc)
    -- `do`-notation on `Except`: an error in the prefix short-circuits
  refine ⟨?_, ?_, ?_⟩
  · rw [on_list, hvl]
    rfl
  · rw [on_single, hvb]
    rfl
  · intro st hst
    unfold dispatch_event
    rw [hst]
    exact dispatch_loop_not_stopped _ _

/-- C9 witness: the batch `[say_hello, no_kwargs_cb]` fails with the
kwargs message naming `no_kwargs`, on an empty registry, and a
non-stopped dispatch of that event runs exactly the stored callbacks. -/
theorem register_invalid_fails_holds :
    on_list (fun _ => []) "message" [say_hello, no_kwargs_cb] =
      .error (.clientError (kwargs_msg "no_kwargs")) :=
  (register_invalid_fails (fun _ => []) "message" [say_hello] no_kwargs_cb []
    (by intro cb hcb; simp at hcb; rw [hcb]; exact ⟨rfl, rfl⟩)
    (Or.inr rfl)).1

/-- C8: every dispatch the reader makes for an inbound text frame uses
the frame's `type` field as the event name (defaulting to `Unknown` when
absent) and hands the handlers the decoded fields with the `type` key
removed; and on a live client a single text frame produces exactly that
one dispatch. -/
theorem read_messages_dispatch_shape (st : RTMState)
    (stream : List WSMessage) :
    (∀ ed ∈ read_messages st stream,
      ∃ m ∈ stream, m.type = WSMsgType.text ∧
        ed = ((m.json.lookup "type").getD (Value.str "Unknown"),
              m.json.filter (fun kv => ¬ kv.1 = "type"))) ∧
    (st.stopped = false → st.websocket = true → ∀ p : Payload,
      read_messages st [⟨WSMsgType.text, p⟩] =
        [((p.lookup "type").getD (Value.str "Unknown"),
          p.filter (fun kv => ¬ kv.1 = "type"))]) := by
  constructor
  · exact read_loop_shape st.stopped st.websocket stream.length stream
  · intro h1 h2 p
    have hc : ¬ (st.stopped = true ∨ st.websocket = false) := by
      rw [h1, h2]
      rintro (h | h) <;> simp at h
    unfold read_messages
    rw [List.length_singleton, read_loop_cons _ _ _ _ _ hc, read_pass_text]
    simp [read_pass, read_loop]

/-- C8 witness: a `message` frame on the connected client dispatches the
event `message` with the `type` key stripped from the payload. -/
theorem read_messages_dispatch_shape_holds :
    read_messages connected_state [msgFrame] =
      [(Value.str "message", [("text", Value.str "hi")])] :=
  (read_messages_dispatch_shape connected_state [msgFrame]).2 rfl rfl
    [("type", Value.str "message"), ("text", Value.str "hi")]

/-- C3 counterexample: on the connected client, a stream consisting of an
ERROR frame followed by a `message` text frame does not end at the ERROR
frame: the `message` frame is still consumed and dispatched (the inner
`break` only re-enters the iteration), and feeding that stream through a
supervisor attempt raises nothing — no failure reaches the per-attempt
scope, no `error` event is dispatched. -/
theorem error_frame_cex :
    read_messages connected_state [errFrame, msgFrame] =
      [(Value.str "message", [("text", Value.str "hi")])] ∧
    (connect_and_read (RTMState.init false true)
        [.connected [] [errFrame, msgFrame]]).raised = none ∧
    (connect_and_read (RTMState.init false true)
        [.connected [] [errFrame, msgFrame]]).dispatched =
      [(Value.str "open", EventData.payload []),
       (Value.str "message", EventData.payload [("text", Value.str "hi")])] := by
  refine ⟨by decide, rfl, by decide⟩

/-- C3 (amended): a frame reporting a transport-level error makes
`_read_messages` break out of the inner frame iteration without raising
anything — so no connectivity failure propagates to the Supervisor, whose
attempt treats the read as a normal return — and, the outer `while` then
re-entering the iterator, any frames the iterator still yields are
consumed and dispatched as usual. -/
theorem error_frame_breaks_silently (st : RTMState) (p : Payload)
    (rest : List WSMessage) (data : Payload) (script : List AttemptOutcome)
    (h1 : st.stopped = false) (h2 : st.websocket = true) :
    read_messages st (⟨WSMsgType.wsError, p⟩ :: rest) =
      read_messages st rest ∧
    (connect_and_read st
        (.connected data (⟨WSMsgType.wsError, p⟩ :: rest) :: script)).raised
      = (connect_and_read
          { st with connectionAttempts := st.connectionAttempts + 1
                    websocket := true } script).raised := by
  constructor
  · have hc : ¬ (st.stopped = true ∨ st.websocket = false) := by
      rw [h1, h2]
      rintro (h | h) <;> simp at h
    unfold read_messages
    rw [List.length_cons, read_loop_cons _ _ _ _ _ hc, read_pass_wsError]
    simp
  · simp [connect_and_read, h1]

/-- C3 witness (amended claim): the ERROR frame before `msgFrame` changes
nothing about what the read loop dispatches. -/
theorem error_frame_breaks_silently_holds :
    read_messages connected_state (⟨WSMsgType.wsError, []⟩ :: [msgFrame]) =
      read_messages connected_state [msgFrame] :=
  (error_frame_breaks_silently connected_state [] [msgFrame] [] []
    rfl rfl).1

/-- C2 counterexample: on a fresh client with `auto_reconnect = true` and
stop never requested, a transport-level connectivity failure (the
websocket handshake failing) is not caught at the per-attempt scope: no
`error` event is dispatched, no backoff wait occurs, and the failure
escapes `_connect_and_read` — so `start()` raises. -/
theorem transport_failure_uncaught :
    (RTMState.init false true).autoReconnect = true ∧
    (RTMState.init false true).stopped = false ∧
    (connect_and_read (RTMState.init false true)
        [.wsConnectFail "WebSocket handshake failed"]).raised
      = some (.transport "WebSocket handshake failed") ∧
    (connect_and_read (RTMState.init false true)
        [.wsConnectFail "WebSocket handshake failed"]).dispatched = [] ∧
    (connect_and_read (RTMState.init false true)
        [.wsConnectFail "WebSocket handshake failed"]).backoffs = [] :=
  ⟨rfl, rfl, rfl, rfl, rfl⟩

/-- C2 (amended): only failures raised as the two caught Slack client
errors — in particular the bootstrap failure `SlackApiError` — are caught
at the Supervisor's per-attempt scope; such a caught failure dispatches a
synthetic `error` event carrying it, and then, when `auto_reconnect` is
true and stop was not requested, a backoff wait is recorded and a new
attempt starts (nothing escapes `start()` from that failure); when
`auto_reconnect` is false the websocket is torn down (with its `close`
event) and the same failure propagates to the caller.  A transport-level
connectivity failure from the handshake, by contrast, is caught by no
`except` clause: it propagates out immediately — no `error` event, no
backoff, no teardown — whatever `auto_reconnect` is. -/
theorem per_attempt_failure_policy (st : RTMState) (msg : String)
    (hint : Option ℚ) (rest : List AttemptOutcome)
    (hstop : st.stopped = false) :
    (st.autoReconnect = true →
      connect_and_read st (.bootstrapFail msg hint :: rest) =
        { state := (connect_and_read
            { st with connectionAttempts := st.connectionAttempts + 1 }
            rest).state
          dispatched := (Value.str "error",
              EventData.exc (.apiError msg hint)) ::
            (connect_and_read
              { st with connectionAttempts := st.connectionAttempts + 1 }
              rest).dispatched
          backoffs := (st.connectionAttempts + 1, hint) ::
            (connect_and_read
              { st with connectionAttempts := st.connectionAttempts + 1 }
              rest).backoffs
          raised := (connect_and_read
            { st with connectionAttempts := st.connectionAttempts + 1 }
            rest).raised }) ∧
    (st.autoReconnect = true → rest = [] →
      (connect_and_read st (.bootstrapFail msg hint :: rest)).raised
        = none) ∧
    (st.autoReconnect = false →
      connect_and_read st (.bootstrapFail msg hint :: rest) =
        { state := { st with
            connectionAttempts := st.connectionAttempts + 1
            websocket := false }
          dispatched := [(Value.str "error",
              EventData.exc (.apiError msg hint)),
            (Value.str "close", EventData.noData)]
          backoffs := []
          raised := some (.apiError msg hint) }) ∧
    (connect_and_read st (.wsConnectFail msg :: rest) =
      { state := { st with connectionAttempts := st.connectionAttempts + 1 }
        dispatched := []
        backoffs := []
        raised := some (.transport msg) }) := by
  refine ⟨?_, ?_, ?_, ?_⟩
  · intro har
    simp [connect_and_read, hstop, har]
  · intro har hrest
    subst hrest
    simp [connect_and_read, hstop, har]
  · intro har
    simp [connect_and_read, close_websocket, hstop, har]
  · simp [connect_and_read, hstop]

/-- C2 witness (amended claim): a single bootstrap failure under
`auto_reconnect = true` lets nothing escape the supervisor loop. -/
theorem per_attempt_failure_policy_holds :
    (connect_and_read (RTMState.init false true)
        [.bootstrapFail "Unable to retreive RTM URL from Slack." none]).raised
      = none :=
  (per_attempt_failure_policy (RTMState.init false true)
    "Unable to retreive RTM URL from Slack." none [] rfl).2.1 rfl rfl

end Slack
